import Mathlib

/-!
Verification of the currency-converter client (src/converter.js).

The JavaScript source is shallowly embedded: JS strings become `String`
(manipulated through their character lists), JS numbers become an exact
value model `JSNum` over `ℚ` with explicit NaN and infinities, promise
resolution and rejection become `Except`, the DOM and the single mutable
`AppState` object become the record `UIState`, and `setTimeout` and
`clearTimeout` become an explicit list of pending timers inside that
record.  Every definition follows the corresponding function of
src/converter.js line by line; the few places where a JS runtime detail
(coercion, thrown exception) is folded into a definition carry a comment
naming that detail.
-/

/- Batteries marks the arithmetic of `Rat` irreducible, which blocks kernel
evaluation inside `decide`; the embedding evaluates rate arithmetic on
concrete inputs, so reducibility is restored for those operations. -/
set_option allowUnsafeReducibility true in
attribute [semireducible] Rat.mul Rat.add Rat.sub Rat.inv Rat.ofScientific

/- Evaluating the binary64 range thresholds and underflowing literals
multiplies numbers with hundreds of digits; both limits below only give
the evaluator room for that. -/
set_option maxRecDepth 4000
set_option exponentiation.threshold 1200

/-! ## Configuration (the CONFIG object, lines 24-31) -/

/-- Config field ERROR_DISPLAY_DURATION: 5000 milliseconds. -/
def ERROR_DISPLAY_DURATION : Nat := 5000

/-- Config field DECIMAL_PLACES: 2 digits for amounts. -/
def DECIMAL_PLACES : Nat := 2

/-! ## JS string primitives used by the source -/

/-- Whitespace recognised by the model of JS `trim` and `parseFloat`:
the ECMAScript WhiteSpace set (tab, VT, FF, space, NBSP, ZWNBSP and the
Unicode Space_Separator characters) and the LineTerminator set (LF, CR,
LS, PS). -/
def isJsWhitespace (c : Char) : Bool :=
  c == ' ' || c == '\t' || c == '\n' || c == '\r' || c == '\x0b' || c == '\x0c' ||
  c == '\u00A0' || c == '\uFEFF' || c == '\u1680' ||
  ('\u2000' ≤ c && c ≤ '\u200A') ||
  c == '\u2028' || c == '\u2029' || c == '\u202F' || c == '\u205F' || c == '\u3000'

/-- Model of JS `String.prototype.trim`: strip leading and trailing
whitespace. -/
def trimJS (s : String) : String :=
  String.mk (((s.data.dropWhile isJsWhitespace).reverse.dropWhile isJsWhitespace).reverse)

/-- Model of JS `value.split(".")`: cut the character list at every dot,
keeping empty pieces, as `"1.2.34".split "."` yields `["1","2","34"]` and
`"".split "."` yields `[""]`. -/
def jsSplitDot : List Char → List (List Char)
  | [] => [[]]
  | c :: rest =>
    match jsSplitDot rest with
    | [] => [[]]
    | g :: gs => if c == '.' then [] :: g :: gs else (c :: g) :: gs

/-! ## The amount-field sanitizer (handleAmountInput, lines 228-247) -/

/-- Model of the amount sanitizer of `handleAmountInput` (lines 229-245):
keep only digits and dots, collapse multiple dots onto the first, and
truncate the fraction to `dp` digits.  The truncation test reads
`parts[1]`, the fragment between the first two dots of the ORIGINAL
split, exactly as the JS does. -/
def sanitizeAmount (dp : Nat) (raw : String) : String :=
  -- value = value.replace(/[^0-9.]/g, "")
  let value := raw.data.filter (fun c => c.isDigit || c == '.')
  -- var parts = value.split(".")
  let parts := jsSplitDot value
  -- if (parts.length > 2) value = parts[0] + "." + parts.slice(1).join("")
  let value1 :=
    if parts.length > 2 then (parts.headD []) ++ '.' :: (parts.drop 1).flatten
    else value
  -- if (parts[1] && parts[1].length > DECIMAL_PLACES)
  --   value = parts[0] + "." + parts[1].substring(0, DECIMAL_PLACES)
  let value2 :=
    match parts with
    | _ :: p1 :: _ =>
      if p1 ≠ [] ∧ dp < p1.length then (parts.headD []) ++ '.' :: p1.take dp
      else value1
    | _ => value1
  String.mk value2

/-- Well-formedness claimed of every sanitizer output: only digits and at
most one decimal separator, with at most `dp` digits after it. -/
def sanitizedWellFormed (dp : Nat) (s : String) : Bool :=
  s.data.all (fun c => c.isDigit || c == '.') &&
  s.data.count '.' ≤ 1 &&
  (match jsSplitDot s.data with
   | [_] => true
   | [_, frac] => frac.length ≤ dp
   | _ => false)

/-! ## JS numbers: an exact value model -/

/-- Value of a JS number as produced and consumed by the converter:
NaN, a signed infinity, or a finite value modelled exactly as a
rational. -/
inductive JSNum where
  | nan : JSNum
  | inf (neg : Bool) : JSNum
  | fin (q : ℚ) : JSNum
deriving DecidableEq

/-- Numeric value of a list of decimal digit characters. -/
def digitsVal (ds : List Char) : Nat :=
  ds.foldl (fun a c => 10 * a + (c.toNat - 48)) 0

/-- Mantissa parsing for the model of `parseFloat`: longest prefix of the
form `digits`, `digits.digits?` or `.digits`; returns its exact value and
the unread remainder, or `none` when no such prefix exists. -/
def parseMantissa (cs : List Char) : Option (ℚ × List Char) :=
  let intD := cs.takeWhile Char.isDigit
  let rest := cs.dropWhile Char.isDigit
  match rest with
  | '.' :: rest2 =>
    let fracD := rest2.takeWhile Char.isDigit
    let rest3 := rest2.dropWhile Char.isDigit
    if intD = [] ∧ fracD = [] then none
    else some (((digitsVal (intD ++ fracD) : ℚ)) / (10 : ℚ) ^ fracD.length, rest3)
  | _ =>
    if intD = [] then none else some ((digitsVal intD : ℚ), rest)

/-- Exponent parsing for the model of `parseFloat`: an `e` or `E`, an
optional sign and digits; a malformed exponent is ignored (value 0), as
`parseFloat` only consumes a well-formed exponent part. -/
def parseExponentPart (cs : List Char) : Int :=
  match cs with
  | c :: rest =>
    if c == 'e' || c == 'E' then
      match rest with
      | '+' :: ds =>
        if ds.takeWhile Char.isDigit = [] then 0
        else (digitsVal (ds.takeWhile Char.isDigit) : Int)
      | '-' :: ds =>
        if ds.takeWhile Char.isDigit = [] then 0
        else -(digitsVal (ds.takeWhile Char.isDigit) : Int)
      | ds =>
        if ds.takeWhile Char.isDigit = [] then 0
        else (digitsVal (ds.takeWhile Char.isDigit) : Int)
    else 0
  | [] => 0

/-- Scaling of a mantissa by a signed power of ten (the power is taken
in `Nat`, which evaluates in one step for the large exponents of
underflowing and overflowing literals). -/
def applyExponent (m : ℚ) (e : Int) : ℚ :=
  if 0 ≤ e then m * mkRat (Int.ofNat (10 ^ e.toNat)) 1
  else m / mkRat (Int.ofNat (10 ^ (-e).toNat)) 1

/-- Exact value of the literal read by JS `parseFloat`: skip leading
whitespace, read an optional sign, then either `Infinity` or a decimal
mantissa with an optional exponent; NaN when no numeric prefix exists.
Unread trailing characters are ignored, as in JS.  This is the
mathematical value of the literal, before the binary64 range adjustment
of `fitBinary64`. -/
def parseFloatExact (s : String) : JSNum :=
  let cs := s.data.dropWhile isJsWhitespace
  let signed : Bool × List Char :=
    match cs with
    | '-' :: r => (true, r)
    | '+' :: r => (false, r)
    | r => (false, r)
  let neg := signed.1
  let cs1 := signed.2
  if cs1.take 8 = "Infinity".data then .inf neg
  else
    match parseMantissa cs1 with
    | none => .nan
    | some (m, rest) =>
      let v := applyExponent m (parseExponentPart rest)
      .fin (if neg then -v else v)

/-- Half of the smallest positive binary64 subnormal: a positive exact
value at or below this threshold rounds to +0 under round-half-even.
The power is taken in `Nat`, which evaluates in one step, and packed
with `mkRat`. -/
def B64_ZERO_THRESHOLD : ℚ := mkRat 1 (2 ^ 1075)

/-- Smallest magnitude that rounds to a binary64 infinity under
round-half-even (the midpoint between the largest finite double and
2 ^ 1024 rounds up, to the even candidate). -/
def B64_INF_THRESHOLD : ℚ := mkRat (Int.ofNat (2 ^ 1024 - 2 ^ 970)) 1

/-- Binary64 range adjustment of an exact literal value: magnitudes that
round to zero become zero (negative ones become the negative zero, which
this model identifies with 0, exactly as every comparison in the source
does) and magnitudes that round past the largest finite double become
the signed infinity.  A magnitude inside the finite range keeps its
exact value rather than the correctly rounded double: in-range rounding
never changes the sign, zero or NaN classification, which is all the
validator reads of a parsed amount, and the one place the program does
arithmetic on a parsed amount is settled at a concrete input where the
double trace agrees with the exact one. -/
def fitBinary64 : JSNum → JSNum
  | .fin q =>
    let mag := if q < 0 then -q else q
    if mag ≤ B64_ZERO_THRESHOLD then .fin 0
    else if B64_INF_THRESHOLD ≤ mag then .inf (decide (q < 0))
    else .fin q
  | x => x

/-- Model of JS `parseFloat`: the exact literal value, adjusted to the
binary64 range the runtime stores it in. -/
def parseFloatJS (s : String) : JSNum :=
  fitBinary64 (parseFloatExact s)

/-- Model of JS multiplication on the value model (used for
`amount * rate`): NaN propagates, infinity times zero is NaN, otherwise
signs combine. -/
def jsMul : JSNum → JSNum → JSNum
  | .nan, _ => .nan
  | _, .nan => .nan
  | .inf n1, .inf n2 => .inf (n1 != n2)
  | .inf n, .fin q => if q = 0 then .nan else .inf (n != decide (q < 0))
  | .fin q, .inf n => if q = 0 then .nan else .inf (n != decide (q < 0))
  | .fin a, .fin b => .fin (a * b)

/-! ## Number formatting: toFixed and toLocaleString -/

/-- Decimal digits of `n`, least significant first; the fuel argument
makes the recursion structural (any fuel above the digit count gives the
same result, and `natDigitsRev` always supplies enough). -/
def natDigitsRevAux : Nat → Nat → List Char
  | _, 0 => []
  | n, fuel + 1 =>
    if n < 10 then [Nat.digitChar n]
    else Nat.digitChar (n % 10) :: natDigitsRevAux (n / 10) fuel

/-- Decimal digits of `n`, least significant first. -/
def natDigitsRev (n : Nat) : List Char :=
  natDigitsRevAux n (n + 1)

/-- Decimal notation of a natural number, as JS renders the integer and
fraction components of a formatted number. -/
def natToString (n : Nat) : List Char :=
  (natDigitsRev n).reverse

/-- Left padding with zeros up to width `w`, for fraction fields. -/
def padZeros (w : Nat) (ds : List Char) : List Char :=
  List.replicate (w - ds.length) '0' ++ ds

/-- Scaled half-up rounding used by `toFixed` and by the en-US number
formatter: the integer nearest to `x * 10 ^ d`, half away from zero on
the magnitude (ECMA-262 Number.prototype.toFixed steps; `x` is the
magnitude, so nonnegative in every use). -/
def roundedScaled (d : Nat) (x : ℚ) : Nat :=
  (⌊x * (10 : ℚ) ^ d + 1 / 2⌋).toNat

/-- Model of JS `Number.prototype.toFixed(d)` on a finite value: sign,
integer part, and exactly `d` fraction digits (the converter only feeds
it values far below the 10^21 threshold where toFixed falls back to
exponential notation). -/
def toFixed (d : Nat) (q : ℚ) : String :=
  let neg := q < 0
  let n := roundedScaled d (if neg then -q else q)
  let intPart := natToString (n / 10 ^ d)
  let s := if d = 0 then intPart else intPart ++ '.' :: padZeros d (natToString (n % 10 ^ d))
  String.mk (if neg then '-' :: s else s)

/-- Thousands grouping on a reversed digit list with structural fuel:
a comma after every three digits. -/
def groupThousandsAux : List Char → Nat → List Char
  | ds, 0 => ds
  | ds, fuel + 1 =>
    if ds.length ≤ 3 then ds
    else ds.take 3 ++ ',' :: groupThousandsAux (ds.drop 3) fuel

/-- Thousands grouping on a reversed digit list: a comma after every
three digits, as the en-US locale groups integer parts. -/
def groupThousandsRev (ds : List Char) : List Char :=
  groupThousandsAux ds ds.length

/-- Model of JS `Number.prototype.toLocaleString("en-US", {minimumFractionDigits: d,
maximumFractionDigits: d})` on a finite value: the toFixed digits with
en-US thousands separators in the integer part. -/
def toLocaleStringEnUS (d : Nat) (q : ℚ) : String :=
  let neg := q < 0
  let n := roundedScaled d (if neg then -q else q)
  let intPart := (groupThousandsRev (natToString (n / 10 ^ d)).reverse).reverse
  let s := if d = 0 then intPart else intPart ++ '.' :: padZeros d (natToString (n % 10 ^ d))
  String.mk (if neg then '-' :: s else s)

/-- Lifting of `toFixed` to the JS value model: `NaN.toFixed` is "NaN"
and `Infinity.toFixed` is "Infinity". -/
def jsToFixed (d : Nat) : JSNum → String
  | .nan => "NaN"
  | .inf neg => if neg then "-Infinity" else "Infinity"
  | .fin q => toFixed d q

/-- Lifting of the en-US formatter to the JS value model: NaN renders as
"NaN" and the infinities as the infinity sign. -/
def jsToLocaleString (d : Nat) : JSNum → String
  | .nan => "NaN"
  | .inf neg => if neg then "-∞" else "∞"
  | .fin q => toLocaleStringEnUS d q

/-! ## Input validation (validateInputs, lines 287-329) -/

/-- Truth of the JS test `isNaN(numAmount) || numAmount <= 0` on the
value model: NaN and every value at most zero fail, positive infinity
passes. -/
def invalidAmount : JSNum → Bool
  | .nan => true
  | .inf neg => neg
  | .fin q => decide (q ≤ 0)

/-- Message shown for an empty amount (line 294). -/
def MSG_EMPTY_AMOUNT : String := "Please enter an amount to convert"

/-- Message shown for a non-numeric or nonpositive amount (line 302). -/
def MSG_INVALID_AMOUNT : String := "Please enter a valid amount greater than 0"

/-- Message shown when no source currency is selected (line 309). -/
def MSG_NO_SOURCE : String := "Please select a source currency"

/-- Message shown when no target currency is selected (line 316). -/
def MSG_NO_TARGET : String := "Please select a target currency"

/-- Message shown when both selections name the same currency (line 323). -/
def MSG_SAME_CURRENCY : String := "Source and target currencies must be different"

/-- Model of `validateInputs` (lines 287-329): the five checks in source
order, stopping at the first failure; `some msg` is the `displayError(msg);
return false` path and `none` is `return true`.  A JS string is falsy
exactly when empty, so `!amount` and `!fromCurrency` become emptiness
tests. -/
def validateInputs (amountRaw fromCurrency toCurrency : String) : Option String :=
  let amount := trimJS amountRaw
  if amount = "" then some MSG_EMPTY_AMOUNT
  else if invalidAmount (parseFloatJS amount) then some MSG_INVALID_AMOUNT
  else if fromCurrency = "" then some MSG_NO_SOURCE
  else if toCurrency = "" then some MSG_NO_TARGET
  else if fromCurrency = toCurrency then some MSG_SAME_CURRENCY
  else none

/-! ## The rate client (fetchExchangeRate, lines 126-147) -/

/-- Outcome of the network call behind one `fetch(url)` chain: a
transport failure (the fetch promise rejects), or a response carrying
the `ok` flag, HTTP status, and the decoded JSON payload fields the
source reads: `result`, `error-type`, and the `conversion_rates`
mapping. -/
inductive FetchResponse where
  | transportError : FetchResponse
  | response (ok : Bool) (status : Nat) (result : String)
      (errorType : Option String) (conversionRates : List (String × ℚ)) : FetchResponse

deriving instance DecidableEq for Except

/-- Lookup of `data.conversion_rates[toCurrency]`: `none` models the JS
`undefined` for an absent key. -/
def lookupRate (rates : List (String × ℚ)) (code : String) : Option ℚ :=
  (rates.find? (fun p => p.1 == code)).map Prod.snd

/-- Model of `fetchExchangeRate` (lines 126-147): reject on transport
error, on a response with `ok` false (line 132), or on a payload whose
`result` is not "success" (line 138); otherwise resolve with
`conversion_rates[toCurrency]`, which is `undefined` (`none`) when the
key is absent (line 141). -/
def fetchExchangeRate (resp : FetchResponse) (toCurrency : String) :
    Except String (Option ℚ) :=
  match resp with
  | .transportError => .error "TypeError: Failed to fetch"
  | .response ok status result errorType rates =>
    if !ok then .error ("HTTP error! Status: " ++ String.mk (natToString status))
    else if result != "success" then .error (errorType.getD "Failed to fetch exchange rate")
    else .ok (lookupRate rates toCurrency)

/-- Truth of "this promise rejected". -/
def exceptFailed : Except String (Option ℚ) → Bool
  | .error _ => true
  | .ok _ => false

/-! ## UI and application state

One record models the DOM fields the source reads and writes, the
mutable `AppState` object (lines 53-58), and the browser timer queue:
`pendingTimers` holds `(id, fireTime)` pairs for outstanding
`setTimeout` callbacks, `nextTimerId` supplies fresh ids, and `now` is
the clock.  Two counters instrument observable effects for the claims:
`networkCalls` counts issued `fetch` requests and `successRenderCalls`
counts invocations of `displayConversionResults`. -/
structure UIState where
  amountValue : String
  fromCurrency : String
  toCurrency : String
  resultText : String
  rateText : String
  errorVisible : Bool
  errorText : String
  isLoading : Bool
  convertBtnDisabled : Bool
  amountDisabled : Bool
  fromCurrencyDisabled : Bool
  toCurrencyDisabled : Bool
  btnText : String
  currencies : List (String × ℚ)
  currentExchangeRate : Option ℚ
  now : Nat
  errorTimeout : Option Nat
  pendingTimers : List (Nat × Nat)
  nextTimerId : Nat
  networkCalls : Nat
  successRenderCalls : Nat
deriving DecidableEq

/-- State of the page as loaded, before any event. -/
def initState : UIState where
  amountValue := ""
  fromCurrency := ""
  toCurrency := ""
  resultText := "--"
  rateText := "Exchange Rate: 1 [SOURCE] = [RATE] [TARGET]"
  errorVisible := false
  errorText := ""
  isLoading := false
  convertBtnDisabled := false
  amountDisabled := false
  fromCurrencyDisabled := false
  toCurrencyDisabled := false
  btnText := "Convert"
  currencies := []
  currentExchangeRate := none
  now := 0
  errorTimeout := none
  pendingTimers := []
  nextTimerId := 0
  networkCalls := 0
  successRenderCalls := 0

/-- Model of `clearTimeout(AppState.errorTimeout)` followed by
`AppState.errorTimeout = null` (the body of the guard in lines 421-424
and, fused with the overwrite on line 411, of lines 406-408): the
pending timer with the stored id is cancelled and the slot cleared.
When no id is stored this is a no-op, as in JS. -/
def clearErrorTimer (s : UIState) : UIState :=
  match s.errorTimeout with
  | some i => { s with pendingTimers := s.pendingTimers.filter (fun p => p.1 != i),
                       errorTimeout := none }
  | none => s

/-- Model of `displayError` (lines 401-414): show the message, cancel
any stored dismiss timer, and schedule a fresh `hideError` after
`ERROR_DISPLAY_DURATION`, storing its id. -/
def displayError (message : String) (s : UIState) : UIState :=
  let s1 := clearErrorTimer { s with errorText := message, errorVisible := true }
  { s1 with pendingTimers := s1.pendingTimers ++ [(s1.nextTimerId, s1.now + ERROR_DISPLAY_DURATION)],
            errorTimeout := some s1.nextTimerId,
            nextTimerId := s1.nextTimerId + 1 }

/-- Model of `hideError` (lines 419-425): hide the message and cancel
the stored dismiss timer, if any. -/
def hideError (s : UIState) : UIState :=
  clearErrorTimer { s with errorVisible := false }

/-- Model of `setLoadingState` (lines 378-395): record the flag, disable
or enable the four controls, and swap the button label. -/
def setLoadingState (isLoading : Bool) (s : UIState) : UIState :=
  { s with isLoading := isLoading
           convertBtnDisabled := isLoading
           amountDisabled := isLoading
           fromCurrencyDisabled := isLoading
           toCurrencyDisabled := isLoading
           btnText := if isLoading then "Converting..." else "Convert" }

/-- Model of `resetResults` (lines 367-372): placeholder result text,
placeholder rate text, stored rate cleared, then `hideError`. -/
def resetResults (s : UIState) : UIState :=
  hideError { s with resultText := "--"
                     rateText := "Exchange Rate: 1 [SOURCE] = [RATE] [TARGET]"
                     currentExchangeRate := none }

/-- Model of `displayConversionResults` (lines 342-362) on a defined
rate: format and show the converted amount (`parseFloat` of the toFixed
string, rendered with the en-US formatter), show the rate line with the
rate at 4 fraction digits, and store the rate.  The success-renderer
counter records the invocation. -/
def displayConversionResults (convertedAmount : String) (rate : ℚ)
    (fromCurrency toCurrency : String) (s : UIState) : UIState :=
  { s with resultText := jsToLocaleString DECIMAL_PLACES (parseFloatJS convertedAmount)
           rateText := "Exchange Rate: 1 " ++ fromCurrency ++ " = "
                       ++ toFixed 4 rate ++ " " ++ toCurrency
           currentExchangeRate := some rate
           successRenderCalls := s.successRenderCalls + 1 }

/-- Model of `handleAmountInput` (lines 228-247) firing on the amount
field whose current text is `s.amountValue`: write back the sanitized
text, then `hideError()`. -/
def handleAmountInput (s : UIState) : UIState :=
  hideError { s with amountValue := sanitizeAmount DECIMAL_PLACES s.amountValue }

/-- Model of `handleConversionRequest` (lines 252-277) for one complete
run whose rate fetch produces `resp`: `hideError`, validation (with
`displayError` on failure), `setLoadingState(true)` and the single
network call, then the `then` branch on a resolved fetch or the `catch`
branch on a rejected one.  When the fetch resolves but the rate is
absent (`undefined`), `amount * undefined` is NaN, its toFixed string is
"NaN", and inside `displayConversionResults` the call
`rate.toFixed(4)` throws a TypeError after the result text was already
written; the promise chain routes that exception to the same `catch`
branch. -/
def handleConversionRequest (resp : FetchResponse) (s : UIState) : UIState :=
  let s0 := hideError s
  match validateInputs s0.amountValue s0.fromCurrency s0.toCurrency with
  | some msg => displayError msg s0
  | none =>
    let amount := parseFloatJS s0.amountValue
    let fromCurrency := s0.fromCurrency
    let toCurrency := s0.toCurrency
    let s1 := setLoadingState true s0
    let s2 := { s1 with networkCalls := s1.networkCalls + 1 }
    match fetchExchangeRate resp toCurrency with
    | .ok (some rate) =>
      let convertedAmount := jsToFixed DECIMAL_PLACES (jsMul amount (.fin rate))
      setLoadingState false (displayConversionResults convertedAmount rate fromCurrency toCurrency s2)
    | .ok none =>
      let s3 := { s2 with resultText := jsToLocaleString DECIMAL_PLACES
                            (parseFloatJS (jsToFixed DECIMAL_PLACES (jsMul amount .nan)))
                          successRenderCalls := s2.successRenderCalls + 1 }
      setLoadingState false (displayError "Conversion failed. Please try again." s3)
    | .error _ =>
      setLoadingState false (displayError "Conversion failed. Please try again." s2)

/-- Phase of `handleConversionRequest` that runs synchronously before
the fetch resolves (lines 253-266): the state while the request is in
flight, and whether a request was issued at all. -/
def conversionRequestPhase1 (s : UIState) : UIState × Bool :=
  let s0 := hideError s
  match validateInputs s0.amountValue s0.fromCurrency s0.toCurrency with
  | some msg => (displayError msg s0, false)
  | none =>
    let s1 := setLoadingState true s0
    ({ s1 with networkCalls := s1.networkCalls + 1 }, true)

/-- Dispatch of a click on the convert button: a disabled button emits
no click event, so the handler runs only when the button is enabled
(listener registration at line 207). -/
def clickConvert (resp : FetchResponse) (s : UIState) : UIState :=
  if s.convertBtnDisabled then s else handleConversionRequest resp s

/-- Dispatch of the Enter key in the amount field: a disabled input
receives no keypress, so the handler runs only when the field is
enabled (listener registration at lines 213-217). -/
def keypressEnterConvert (resp : FetchResponse) (s : UIState) : UIState :=
  if s.amountDisabled then s else handleConversionRequest resp s

/-- Firing of the pending `setTimeout` callback with id `i` (scheduled
at line 411): the browser removes the fired timer from the queue and
runs the callback, which is `hideError`. -/
def fireTimer (i : Nat) (s : UIState) : UIState :=
  hideError { s with pendingTimers := s.pendingTimers.filter (fun p => p.1 != i) }

/-- Message shown when the startup currency load fails (line 112). -/
def MSG_LOAD_CURRENCIES_FAILED : String :=
  "Unable to load currencies. Please check your internet connection and API key."

/-- Message shown by the initialization catch handler (line 75). -/
def MSG_INIT_FAILED : String :=
  "Failed to initialize application. Please refresh the page."

/-- Model of the startup sequence `initializeApp` plus
`loadAvailableCurrencies` (lines 67-78 and 88-118) under one network
outcome: loading state on, then either the catalog is installed and the
default currencies selected, or the two catch handlers each display
their error (the second replacing the first). -/
def initializeApp (resp : FetchResponse) (s : UIState) : UIState :=
  let s1 := setLoadingState true s
  match resp with
  | .transportError => displayError MSG_INIT_FAILED (setLoadingState false (displayError MSG_LOAD_CURRENCIES_FAILED s1))
  | .response ok _ result _ rates =>
    if !ok || result != "success" then
      displayError MSG_INIT_FAILED (setLoadingState false (displayError MSG_LOAD_CURRENCIES_FAILED s1))
    else
      let s2 := setLoadingState false { s1 with currencies := rates }
      { s2 with
          fromCurrency := if (lookupRate rates "USD").isSome then "USD" else s2.fromCurrency
          toCurrency := if (lookupRate rates "EUR").isSome then "EUR" else s2.toCurrency }

/-! ## Events and reachable states -/

/-- One user, network or timer event and the handler run it triggers,
as wired by `setupEventListeners` (lines 205-222), the startup
(lines 454-458), the global error handlers (lines 434-445), and the
timer queue. -/
inductive Step : UIState → UIState → Prop where
  | initialLoad (s : UIState) (resp : FetchResponse) :
      Step s (initializeApp resp s)
  | amountInput (s : UIState) (raw : String) :
      Step s (handleAmountInput { s with amountValue := raw })
  | convert (s : UIState) (resp : FetchResponse) :
      Step s (handleConversionRequest resp s)
  | currencyChange (s : UIState) (src tgt : String) :
      Step s (resetResults { s with fromCurrency := src, toCurrency := tgt })
  | uncaughtError (s : UIState) (message : String) :
      Step s (displayError message s)
  | fire (s : UIState) (i t : Nat) (hmem : (i, t) ∈ s.pendingTimers)
      (hdue : t ≤ s.now) : Step s (fireTimer i s)
  | advance (s : UIState) (d : Nat) :
      Step s { s with now := s.now + d }

/-- States the application can be in, starting from the loaded page. -/
inductive Reachable : UIState → Prop where
  | init : Reachable initState
  | step {s s2 : UIState} : Reachable s → Step s s2 → Reachable s2

/-- Timer-queue discipline maintained by the handlers: every pending id
is below the id counter (so stored ids are never reused), and the queue
holds exactly the timer stored in `errorTimeout`: one entry when an id
is stored, none when not. -/
def TimerInv (s : UIState) : Prop :=
  (∀ p ∈ s.pendingTimers, p.1 < s.nextTimerId) ∧
  ((∃ i t, s.errorTimeout = some i ∧ s.pendingTimers = [(i, t)]) ∨
   (s.errorTimeout = none ∧ s.pendingTimers = []))

@[simp] theorem clearErrorTimer_amountValue (s : UIState) :
    (clearErrorTimer s).amountValue = s.amountValue := by
  unfold clearErrorTimer; cases s.errorTimeout <;> rfl

@[simp] theorem clearErrorTimer_fromCurrency (s : UIState) :
    (clearErrorTimer s).fromCurrency = s.fromCurrency := by
  unfold clearErrorTimer; cases s.errorTimeout <;> rfl

@[simp] theorem clearErrorTimer_toCurrency (s : UIState) :
    (clearErrorTimer s).toCurrency = s.toCurrency := by
  unfold clearErrorTimer; cases s.errorTimeout <;> rfl

@[simp] theorem clearErrorTimer_resultText (s : UIState) :
    (clearErrorTimer s).resultText = s.resultText := by
  unfold clearErrorTimer; cases s.errorTimeout <;> rfl

@[simp] theorem clearErrorTimer_rateText (s : UIState) :
    (clearErrorTimer s).rateText = s.rateText := by
  unfold clearErrorTimer; cases s.errorTimeout <;> rfl

@[simp] theorem clearErrorTimer_errorVisible (s : UIState) :
    (clearErrorTimer s).errorVisible = s.errorVisible := by
  unfold clearErrorTimer; cases s.errorTimeout <;> rfl

@[simp] theorem clearErrorTimer_errorText (s : UIState) :
    (clearErrorTimer s).errorText = s.errorText := by
  unfold clearErrorTimer; cases s.errorTimeout <;> rfl

@[simp] theorem clearErrorTimer_isLoading (s : UIState) :
    (clearErrorTimer s).isLoading = s.isLoading := by
  unfold clearErrorTimer; cases s.errorTimeout <;> rfl

@[simp] theorem clearErrorTimer_convertBtnDisabled (s : UIState) :
    (clearErrorTimer s).convertBtnDisabled = s.convertBtnDisabled := by
  unfold clearErrorTimer; cases s.errorTimeout <;> rfl

@[simp] theorem clearErrorTimer_amountDisabled (s : UIState) :
    (clearErrorTimer s).amountDisabled = s.amountDisabled := by
  unfold clearErrorTimer; cases s.errorTimeout <;> rfl

@[simp] theorem clearErrorTimer_fromCurrencyDisabled (s : UIState) :
    (clearErrorTimer s).fromCurrencyDisabled = s.fromCurrencyDisabled := by
  unfold clearErrorTimer; cases s.errorTimeout <;> rfl

@[simp] theorem clearErrorTimer_toCurrencyDisabled (s : UIState) :
    (clearErrorTimer s).toCurrencyDisabled = s.toCurrencyDisabled := by
  unfold clearErrorTimer; cases s.errorTimeout <;> rfl

@[simp] theorem clearErrorTimer_btnText (s : UIState) :
    (clearErrorTimer s).btnText = s.btnText := by
  unfold clearErrorTimer; cases s.errorTimeout <;> rfl

@[simp] theorem clearErrorTimer_currencies (s : UIState) :
    (clearErrorTimer s).currencies = s.currencies := by
  unfold clearErrorTimer; cases s.errorTimeout <;> rfl

@[simp] theorem clearErrorTimer_currentExchangeRate (s : UIState) :
    (clearErrorTimer s).currentExchangeRate = s.currentExchangeRate := by
  unfold clearErrorTimer; cases s.errorTimeout <;> rfl

@[simp] theorem clearErrorTimer_now (s : UIState) :
    (clearErrorTimer s).now = s.now := by
  unfold clearErrorTimer; cases s.errorTimeout <;> rfl

@[simp] theorem clearErrorTimer_nextTimerId (s : UIState) :
    (clearErrorTimer s).nextTimerId = s.nextTimerId := by
  unfold clearErrorTimer; cases s.errorTimeout <;> rfl

@[simp] theorem clearErrorTimer_networkCalls (s : UIState) :
    (clearErrorTimer s).networkCalls = s.networkCalls := by
  unfold clearErrorTimer; cases s.errorTimeout <;> rfl

@[simp] theorem clearErrorTimer_successRenderCalls (s : UIState) :
    (clearErrorTimer s).successRenderCalls = s.successRenderCalls := by
  unfold clearErrorTimer; cases s.errorTimeout <;> rfl

@[simp] theorem clearErrorTimer_errorTimeout (s : UIState) :
    (clearErrorTimer s).errorTimeout = none := by
  unfold clearErrorTimer; cases he : s.errorTimeout <;> simp [he]

/-- Character of the cancellation in `clearErrorTimer`: whatever id was
stored is no longer pending afterwards. -/
theorem clearErrorTimer_not_mem (s : UIState) (i : Nat)
    (h : s.errorTimeout = some i) (t : Nat) :
    (i, t) ∉ (clearErrorTimer s).pendingTimers := by
  unfold clearErrorTimer
  rw [h]
  simp [List.mem_filter]

/-- Queue after `clearErrorTimer` under the invariant: empty. -/
theorem clearErrorTimer_pendingTimers_of_inv (s : UIState) (h : TimerInv s) :
    (clearErrorTimer s).pendingTimers = [] := by
  unfold clearErrorTimer
  rcases h.2 with ⟨i, t, he, hp⟩ | ⟨he, hp⟩ <;> rw [he] <;> simp [hp]

/-- Preservation: cancelling the stored timer keeps the queue
discipline. -/
theorem timerInv_clearErrorTimer (s : UIState) (h : TimerInv s) :
    TimerInv (clearErrorTimer s) := by
  have hq := clearErrorTimer_pendingTimers_of_inv s h
  refine ⟨?_, Or.inr ⟨clearErrorTimer_errorTimeout s, hq⟩⟩
  intro p hp
  rw [hq] at hp
  cases hp

/-- Preservation: `hideError` keeps the queue discipline. -/
theorem timerInv_hideError (s : UIState) (h : TimerInv s) :
    TimerInv (hideError s) := by
  unfold hideError
  exact timerInv_clearErrorTimer _ h

/-- Queue after `hideError` under the invariant: empty. -/
theorem hideError_pendingTimers_of_inv (s : UIState) (h : TimerInv s) :
    (hideError s).pendingTimers = [] := by
  unfold hideError
  exact clearErrorTimer_pendingTimers_of_inv _ h

/-- Queue after `displayError` under the invariant: exactly one fresh
timer, due a full `ERROR_DISPLAY_DURATION` after the current time. -/
theorem displayError_pendingTimers_of_inv (m : String) (s : UIState) (h : TimerInv s) :
    (displayError m s).pendingTimers = [(s.nextTimerId, s.now + ERROR_DISPLAY_DURATION)] := by
  unfold displayError
  have he : (clearErrorTimer { s with errorText := m, errorVisible := true }).pendingTimers = [] :=
    clearErrorTimer_pendingTimers_of_inv _ h
  simp [he]

@[simp] theorem displayError_errorTimeout (m : String) (s : UIState) :
    (displayError m s).errorTimeout = some s.nextTimerId := by
  unfold displayError; simp

@[simp] theorem displayError_nextTimerId (m : String) (s : UIState) :
    (displayError m s).nextTimerId = s.nextTimerId + 1 := by
  unfold displayError; simp

/-- Preservation: `displayError` keeps the queue discipline. -/
theorem timerInv_displayError (m : String) (s : UIState) (h : TimerInv s) :
    TimerInv (displayError m s) := by
  have hq := displayError_pendingTimers_of_inv m s h
  constructor
  · intro p hp
    rw [hq] at hp
    simp only [List.mem_singleton] at hp
    subst hp
    rw [displayError_nextTimerId]
    omega
  · exact Or.inl ⟨s.nextTimerId, s.now + ERROR_DISPLAY_DURATION,
      displayError_errorTimeout m s, hq⟩

/-- Preservation: firing a pending timer (which runs `hideError`) keeps
the queue discipline, leaving the queue empty. -/
theorem timerInv_fireTimer (i : Nat) (s : UIState) (h : TimerInv s) :
    TimerInv (fireTimer i s) := by
  unfold fireTimer hideError clearErrorTimer
  rcases h.2 with ⟨j, t, he, hp⟩ | ⟨he, hp⟩
  · have hout : List.filter (fun p => p.1 != j)
        (List.filter (fun p => p.1 != i) s.pendingTimers) = [] := by
      rw [hp]
      rcases eq_or_ne j i with hij | hij
      · subst hij; simp
      · simp [hij]
    simp only [he]
    exact ⟨by intro p hmem; simp [hout] at hmem, Or.inr ⟨rfl, hout⟩⟩
  · simp only [he, hp]
    exact ⟨by intro p hmem; simp at hmem, Or.inr ⟨rfl, by simp⟩⟩

/-- Preservation: the amount-input handler keeps the queue discipline. -/
theorem timerInv_handleAmountInput (s : UIState) (h : TimerInv s) :
    TimerInv (handleAmountInput s) := by
  unfold handleAmountInput
  exact timerInv_hideError _ h

/-- Preservation: the currency-change handler keeps the queue
discipline. -/
theorem timerInv_resetResults (s : UIState) (h : TimerInv s) :
    TimerInv (resetResults s) := by
  unfold resetResults
  exact timerInv_hideError _ h

/-- Preservation: a full conversion run keeps the queue discipline. -/
theorem timerInv_handleConversionRequest (resp : FetchResponse) (s : UIState)
    (h : TimerInv s) : TimerInv (handleConversionRequest resp s) := by
  have h0 : TimerInv (hideError s) := timerInv_hideError s h
  simp only [handleConversionRequest]
  split
  · exact timerInv_displayError _ _ h0
  · split
    · exact h0
    · exact timerInv_displayError _ _ h0
    · exact timerInv_displayError _ _ h0

/-- Preservation: the startup sequence keeps the queue discipline. -/
theorem timerInv_initializeApp (resp : FetchResponse) (s : UIState)
    (h : TimerInv s) : TimerInv (initializeApp resp s) := by
  simp only [initializeApp]
  split
  · exact timerInv_displayError _ _ (timerInv_displayError _ _ h)
  · split
    · exact timerInv_displayError _ _ (timerInv_displayError _ _ h)
    · exact h

/-- The queue discipline holds in every reachable state. -/
theorem reachable_timerInv {s : UIState} (h : Reachable s) : TimerInv s := by
  induction h with
  | init => exact ⟨(by intro p hp; cases hp), Or.inr ⟨rfl, rfl⟩⟩
  | step hr hstep ih =>
    cases hstep with
    | initialLoad resp => exact timerInv_initializeApp resp _ ih
    | amountInput raw => exact timerInv_handleAmountInput _ ih
    | convert resp => exact timerInv_handleConversionRequest resp _ ih
    | currencyChange src tgt => exact timerInv_resetResults _ ih
    | uncaughtError m => exact timerInv_displayError m _ ih
    | fire i t hmem hdue => exact timerInv_fireTimer i _ ih
    | advance d => exact ih

/-! ## Digits of formatted numbers -/

/-- C1 evidence: on the amount text "1.2.34" the sanitizer (with the
configured limit of 2 decimal places) outputs "1.234", which carries
three digits after the decimal separator; the claimed bound of at most
`DECIMAL_PLACES` digits after the separator is violated because the
truncation guard tests the pre-collapse fragment "2" instead of the
collapsed fraction "234". -/
theorem sanitizer_decimal_limit_violated :
    sanitizeAmount DECIMAL_PLACES "1.2.34" = "1.234" ∧
    sanitizedWellFormed DECIMAL_PLACES (sanitizeAmount DECIMAL_PLACES "1.2.34") = false := by
  decide

/-- C2 counterexample: a successful payload (`ok` transport, `result`
"success") whose rate mapping carries GBP but not EUR makes
`fetchExchangeRate` resolve successfully, with the absent
(`undefined`) rate, instead of failing with any error: there is no
`MissingRateError` path in the source (line 141 resolves the bare
lookup). -/
theorem fetchRate_absent_target_resolves :
    fetchExchangeRate (.response true 200 "success" none [("GBP", (4 : ℚ) / 5)]) "EUR"
      = .ok none ∧
    exceptFailed (fetchExchangeRate
      (.response true 200 "success" none [("GBP", (4 : ℚ) / 5)]) "EUR") = false := by
  decide

/-- C2 amended: when `toCurrency` is absent from the mapping of a
successful response, `fetchExchangeRate` resolves with the undefined
rate (`none`) rather than failing; it rejects exactly on transport
error, on a non-ok transport status, and on a payload whose `result`
differs from "success". -/
theorem fetchRate_failure_modes :
    (∀ (status : Nat) (errorType : Option String) (rates : List (String × ℚ)) (toC : String),
       lookupRate rates toC = none →
       fetchExchangeRate (.response true status "success" errorType rates) toC = .ok none) ∧
    (∀ toC, exceptFailed (fetchExchangeRate .transportError toC) = true) ∧
    (∀ (status : Nat) (res : String) (errorType : Option String)
       (rates : List (String × ℚ)) (toC : String), res ≠ "success" →
       exceptFailed (fetchExchangeRate (.response true status res errorType rates) toC) = true) ∧
    (∀ (status : Nat) (res : String) (errorType : Option String)
       (rates : List (String × ℚ)) (toC : String),
       exceptFailed (fetchExchangeRate (.response false status res errorType rates) toC) = true) := by
  refine ⟨?_, ?_, ?_, ?_⟩
  · intro status errorType rates toC h
    simp [fetchExchangeRate, h]
  · intro toC
    simp [fetchExchangeRate, exceptFailed]
  · intro status res errorType rates toC h
    simp [fetchExchangeRate, exceptFailed, h]
  · intro status res errorType rates toC
    simp [fetchExchangeRate, exceptFailed]

/-- C2 amended witness: the JPY rate is absent from a concrete mapping
and the fetch resolves with the undefined rate there. -/
theorem fetchRate_failure_modes_witness :
    lookupRate [("GBP", (4 : ℚ) / 5)] "JPY" = none ∧
    fetchExchangeRate (.response true 200 "success" none [("GBP", (4 : ℚ) / 5)]) "JPY"
      = .ok none :=
  ⟨by decide, fetchRate_failure_modes.1 200 none [("GBP", (4 : ℚ) / 5)] "JPY" (by decide)⟩

/-- State of the page for the C4 scenario: amount text "100", USD to
EUR selected, catalog loaded. -/
def usdEurState : UIState :=
  { initState with amountValue := "100", fromCurrency := "USD", toCurrency := "EUR",
                   currencies := [("USD", 1), ("EUR", (9 : ℚ) / 10)] }

/-- Auxiliary fact: the empty string parses to NaN, so a request whose
trimmed amount parses to a finite value has a nonempty trimmed
amount. -/
theorem parseFloatJS_empty : parseFloatJS "" = .nan := by decide

/-- C3 counterexample: the amount string "1e-330" denotes the positive
finite number 10 ^ -330, but that magnitude lies below half the
smallest positive double, so `parseFloat` underflows it to 0 and the
validator rejects the request through the `numAmount <= 0` check, with
the invalid-amount message; the claimed acceptance of every positive
finite amount fails here. -/
theorem validator_rejects_underflowed_positive :
    parseFloatExact "1e-330" = .fin (mkRat 1 (10 ^ 330)) ∧
    (0 : ℚ) < mkRat 1 (10 ^ 330) ∧
    parseFloatJS "1e-330" = .fin 0 ∧
    validateInputs "1e-330" "USD" "EUR" = some MSG_INVALID_AMOUNT := by
  decide

/-- C3 amended: the validator rejects every request whose trimmed
amount is empty, parses to NaN, or whose parsed binary64 value is at
most zero (which includes positive literals that underflow to zero,
such as "1e-330"), and accepts every request whose parsed binary64
value is positive and finite when both currencies are nonempty and
distinct. -/
theorem validator_accepts_exactly_valid :
    (∀ a f t, trimJS a = "" → (validateInputs a f t).isSome = true) ∧
    (∀ a f t, parseFloatJS (trimJS a) = .nan → (validateInputs a f t).isSome = true) ∧
    (∀ a f t (q : ℚ), parseFloatJS (trimJS a) = .fin q → q ≤ 0 →
       (validateInputs a f t).isSome = true) ∧
    (∀ a f t (q : ℚ), parseFloatJS (trimJS a) = .fin q → 0 < q → f ≠ "" → t ≠ "" → f ≠ t →
       validateInputs a f t = none) := by
  refine ⟨?_, ?_, ?_, ?_⟩
  · intro a f t h
    simp [validateInputs, h]
  · intro a f t h
    by_cases he : trimJS a = "" <;> simp [validateInputs, he, h, invalidAmount]
  · intro a f t q h hq
    have he : ¬(trimJS a = "") := by
      intro he
      rw [he, parseFloatJS_empty] at h
      cases h
    simp [validateInputs, he, h, invalidAmount, hq]
  · intro a f t q h hq hf ht hft
    have he : ¬(trimJS a = "") := by
      intro he
      rw [he, parseFloatJS_empty] at h
      cases h
    simp [validateInputs, he, h, invalidAmount, not_le.mpr hq, hf, ht, hft]

/-- C3 witness: the request (amount "100", USD, EUR) satisfies the
acceptance hypotheses and is accepted. -/
theorem validator_accepts_exactly_valid_witness :
    parseFloatJS (trimJS "100") = .fin 100 ∧ (0 : ℚ) < 100 ∧
    ("USD" : String) ≠ "" ∧ ("EUR" : String) ≠ "" ∧ ("USD" : String) ≠ "EUR" ∧
    validateInputs "100" "USD" "EUR" = none :=
  ⟨by decide, by decide, by decide, by decide, by decide,
    validator_accepts_exactly_valid.2.2.2 "100" "USD" "EUR" 100
      (by decide) (by decide) (by decide) (by decide) (by decide)⟩

/-- C5: the five validator checks run in source order with
short-circuiting (an earlier failure decides the message whatever the
later fields hold), the five messages are pairwise distinct, and a run
produces at most one message, always one of the five. -/
theorem validator_order_and_messages :
    (MSG_EMPTY_AMOUNT ≠ MSG_INVALID_AMOUNT ∧ MSG_EMPTY_AMOUNT ≠ MSG_NO_SOURCE ∧
     MSG_EMPTY_AMOUNT ≠ MSG_NO_TARGET ∧ MSG_EMPTY_AMOUNT ≠ MSG_SAME_CURRENCY ∧
     MSG_INVALID_AMOUNT ≠ MSG_NO_SOURCE ∧ MSG_INVALID_AMOUNT ≠ MSG_NO_TARGET ∧
     MSG_INVALID_AMOUNT ≠ MSG_SAME_CURRENCY ∧ MSG_NO_SOURCE ≠ MSG_NO_TARGET ∧
     MSG_NO_SOURCE ≠ MSG_SAME_CURRENCY ∧ MSG_NO_TARGET ≠ MSG_SAME_CURRENCY) ∧
    (∀ a f t, trimJS a = "" → validateInputs a f t = some MSG_EMPTY_AMOUNT) ∧
    (∀ a f t, trimJS a ≠ "" → invalidAmount (parseFloatJS (trimJS a)) = true →
       validateInputs a f t = some MSG_INVALID_AMOUNT) ∧
    (∀ a f t, trimJS a ≠ "" → invalidAmount (parseFloatJS (trimJS a)) = false → f = "" →
       validateInputs a f t = some MSG_NO_SOURCE) ∧
    (∀ a f t, trimJS a ≠ "" → invalidAmount (parseFloatJS (trimJS a)) = false → f ≠ "" →
       t = "" → validateInputs a f t = some MSG_NO_TARGET) ∧
    (∀ a f t, trimJS a ≠ "" → invalidAmount (parseFloatJS (trimJS a)) = false → f ≠ "" →
       t ≠ "" → f = t → validateInputs a f t = some MSG_SAME_CURRENCY) ∧
    (∀ a f t m, validateInputs a f t = some m →
       m = MSG_EMPTY_AMOUNT ∨ m = MSG_INVALID_AMOUNT ∨ m = MSG_NO_SOURCE ∨
       m = MSG_NO_TARGET ∨ m = MSG_SAME_CURRENCY) := by
  refine ⟨by decide, ?_, ?_, ?_, ?_, ?_, ?_⟩
  · intro a f t h
    simp [validateInputs, h]
  · intro a f t he h
    simp [validateInputs, he, h]
  · intro a f t he h hf
    simp [validateInputs, he, h, hf]
  · intro a f t he h hf ht
    simp [validateInputs, he, h, hf, ht]
  · intro a f t he h hf ht hft
    simp [validateInputs, he, h, hf, ht, hft]
  · intro a f t m hm
    simp only [validateInputs] at hm
    split_ifs at hm with h1 h2 h3 h4 h5
    · exact Or.inl (Option.some.inj hm).symm
    · exact Or.inr (Or.inl (Option.some.inj hm).symm)
    · exact Or.inr (Or.inr (Or.inl (Option.some.inj hm).symm))
    · exact Or.inr (Or.inr (Or.inr (Or.inl (Option.some.inj hm).symm)))
    · exact Or.inr (Or.inr (Or.inr (Or.inr (Option.some.inj hm).symm)))

/-- C5 witness: a request failing several checks at once (empty amount,
no currencies selected) produces exactly the first message in the check
order. -/
theorem validator_order_and_messages_witness :
    trimJS "" = "" ∧ validateInputs "" "" "" = some MSG_EMPTY_AMOUNT :=
  ⟨by decide, validator_order_and_messages.2.1 "" "" "" (by decide)⟩

/-- C6: whenever the inputs pass validation and the rate fetch fails
(transport error, non-ok status, or non-success payload all make
`fetchExchangeRate` reject), the run displays the conversion error
message, never invokes the success renderer, and ends with loading off
and all four controls re-enabled. -/
theorem fetch_failure_shows_error_and_reenables :
    ∀ (s : UIState) (resp : FetchResponse),
      validateInputs s.amountValue s.fromCurrency s.toCurrency = none →
      exceptFailed (fetchExchangeRate resp s.toCurrency) = true →
      (handleConversionRequest resp s).errorVisible = true ∧
      (handleConversionRequest resp s).errorText = "Conversion failed. Please try again." ∧
      (handleConversionRequest resp s).successRenderCalls = s.successRenderCalls ∧
      (handleConversionRequest resp s).isLoading = false ∧
      (handleConversionRequest resp s).convertBtnDisabled = false ∧
      (handleConversionRequest resp s).amountDisabled = false ∧
      (handleConversionRequest resp s).fromCurrencyDisabled = false ∧
      (handleConversionRequest resp s).toCurrencyDisabled = false := by
  intro s resp hv hf
  obtain ⟨e, he⟩ : ∃ e, fetchExchangeRate resp s.toCurrency = .error e := by
    cases hfe : fetchExchangeRate resp s.toCurrency with
    | ok v => rw [hfe] at hf; simp [exceptFailed] at hf
    | error e => exact ⟨e, rfl⟩
  have hv0 : validateInputs (hideError s).amountValue (hideError s).fromCurrency
      (hideError s).toCurrency = none := by
    simpa [hideError] using hv
  have he0 : fetchExchangeRate resp (hideError s).toCurrency = .error e := by
    simpa [hideError] using he
  simp only [handleConversionRequest, hv0, he0]
  simp [displayError, setLoadingState, hideError]

/-- C6 witness: with valid USD-to-EUR inputs and a transport failure,
the run shows the error. -/
theorem fetch_failure_shows_error_and_reenables_witness :
    validateInputs usdEurState.amountValue usdEurState.fromCurrency
      usdEurState.toCurrency = none ∧
    exceptFailed (fetchExchangeRate .transportError usdEurState.toCurrency) = true ∧
    (handleConversionRequest .transportError usdEurState).errorVisible = true ∧
    (handleConversionRequest .transportError usdEurState).successRenderCalls
      = usdEurState.successRenderCalls :=
  ⟨by decide, by decide,
    (fetch_failure_shows_error_and_reenables usdEurState .transportError
      (by decide) (by decide)).1,
    (fetch_failure_shows_error_and_reenables usdEurState .transportError
      (by decide) (by decide)).2.2.1⟩

/-- C8: a click on the disabled convert button and an Enter keypress in
the disabled amount field are both no-ops (no state change, no network
request), and a validated submission leaves the workflow in the loading
state with the button and the amount field disabled, after exactly one
more network call. -/
theorem loading_blocks_resubmission :
    (∀ (resp : FetchResponse) (s : UIState), s.convertBtnDisabled = true →
       clickConvert resp s = s) ∧
    (∀ (resp : FetchResponse) (s : UIState), s.convertBtnDisabled = true →
       (clickConvert resp s).networkCalls = s.networkCalls) ∧
    (∀ (resp : FetchResponse) (s : UIState), s.amountDisabled = true →
       keypressEnterConvert resp s = s) ∧
    (∀ s : UIState, validateInputs s.amountValue s.fromCurrency s.toCurrency = none →
       (conversionRequestPhase1 s).2 = true ∧
       (conversionRequestPhase1 s).1.isLoading = true ∧
       (conversionRequestPhase1 s).1.convertBtnDisabled = true ∧
       (conversionRequestPhase1 s).1.amountDisabled = true ∧
       (conversionRequestPhase1 s).1.networkCalls = s.networkCalls + 1) := by
  refine ⟨?_, ?_, ?_, ?_⟩
  · intro resp s h
    simp [clickConvert, h]
  · intro resp s h
    simp [clickConvert, h]
  · intro resp s h
    simp [keypressEnterConvert, h]
  · intro s hv
    have hv0 : validateInputs (hideError s).amountValue (hideError s).fromCurrency
        (hideError s).toCurrency = none := by
      simpa [hideError] using hv
    simp only [conversionRequestPhase1, hv0]
    simp [setLoadingState, hideError]

/-- C8 witness: on a state with the convert button disabled (as during
Loading) a further click changes nothing. -/
theorem loading_blocks_resubmission_witness :
    ({ initState with convertBtnDisabled := true } : UIState).convertBtnDisabled = true ∧
    clickConvert .transportError { initState with convertBtnDisabled := true }
      = { initState with convertBtnDisabled := true } :=
  ⟨rfl, loading_blocks_resubmission.1 .transportError
    { initState with convertBtnDisabled := true } rfl⟩

/-- C9: the currency-change handler, from any state and for either
dropdown, resets the result and rate displays to their placeholders,
clears the stored rate, hides any error and cancels its dismiss timer,
and leaves the network-call count, the amount text and the currency
catalog untouched. -/
theorem currency_change_resets_without_network :
    ∀ (s : UIState) (src tgt : String),
      (resetResults { s with fromCurrency := src, toCurrency := tgt }).resultText = "--" ∧
      (resetResults { s with fromCurrency := src, toCurrency := tgt }).rateText
        = "Exchange Rate: 1 [SOURCE] = [RATE] [TARGET]" ∧
      (resetResults { s with fromCurrency := src, toCurrency := tgt }).currentExchangeRate
        = none ∧
      (resetResults { s with fromCurrency := src, toCurrency := tgt }).errorVisible = false ∧
      (resetResults { s with fromCurrency := src, toCurrency := tgt }).errorTimeout = none ∧
      (resetResults { s with fromCurrency := src, toCurrency := tgt }).networkCalls
        = s.networkCalls ∧
      (resetResults { s with fromCurrency := src, toCurrency := tgt }).amountValue
        = s.amountValue ∧
      (resetResults { s with fromCurrency := src, toCurrency := tgt }).currencies
        = s.currencies ∧
      (∀ i t, s.errorTimeout = some i →
        (i, t) ∉ (resetResults { s with fromCurrency := src, toCurrency := tgt }).pendingTimers) := by
  intro s src tgt
  refine ⟨by simp [resetResults, hideError], by simp [resetResults, hideError],
    by simp [resetResults, hideError], by simp [resetResults, hideError],
    by simp [resetResults, hideError], by simp [resetResults, hideError],
    by simp [resetResults, hideError], by simp [resetResults, hideError], ?_⟩
  intro i t hi
  simp only [resetResults, hideError, clearErrorTimer]
  simp only [hi]
  simp [List.mem_filter]

/-- C9 witness: from a state with an active error timer (id 0, due at
7), a currency change leaves no trace of that timer. -/
theorem currency_change_resets_without_network_witness :
    ({ initState with errorTimeout := some 0, pendingTimers := [(0, 7)],
                      nextTimerId := 1 } : UIState).errorTimeout = some 0 ∧
    (0, 7) ∉ (resetResults { initState with errorTimeout := some 0,
                                            pendingTimers := [(0, 7)], nextTimerId := 1,
                                            fromCurrency := "GBP",
                                            toCurrency := "JPY" }).pendingTimers :=
  ⟨rfl, (currency_change_resets_without_network
    { initState with errorTimeout := some 0, pendingTimers := [(0, 7)], nextTimerId := 1 }
    "GBP" "JPY").2.2.2.2.2.2.2.2 0 7 rfl⟩

/-- C10: every amount-input event writes back the sanitized text and
then unconditionally hides the error and cancels its dismiss timer,
whatever the previous text and whether or not the sanitized text is a
valid amount. -/
theorem amount_input_always_hides_error :
    ∀ s : UIState,
      (handleAmountInput s).amountValue = sanitizeAmount DECIMAL_PLACES s.amountValue ∧
      (handleAmountInput s).errorVisible = false ∧
      (handleAmountInput s).errorTimeout = none ∧
      (∀ i t, s.errorTimeout = some i → (i, t) ∉ (handleAmountInput s).pendingTimers) := by
  intro s
  refine ⟨by simp [handleAmountInput, hideError], by simp [handleAmountInput, hideError],
    by simp [handleAmountInput, hideError], ?_⟩
  intro i t hi
  simp only [handleAmountInput, hideError, clearErrorTimer]
  simp only [hi]
  simp [List.mem_filter]

/-- C10 witness: with an error showing and its timer pending (id 3, due
at 9), an input event on the amount field hides the error and cancels
the timer. -/
theorem amount_input_always_hides_error_witness :
    ({ initState with amountValue := "12a", errorVisible := true, errorTimeout := some 3,
                      pendingTimers := [(3, 9)], nextTimerId := 4 } : UIState).errorTimeout
      = some 3 ∧
    (3, 9) ∉ (handleAmountInput { initState with amountValue := "12a", errorVisible := true,
                                                 errorTimeout := some 3,
                                                 pendingTimers := [(3, 9)],
                                                 nextTimerId := 4 }).pendingTimers :=
  ⟨rfl, (amount_input_always_hides_error
    { initState with amountValue := "12a", errorVisible := true, errorTimeout := some 3,
                     pendingTimers := [(3, 9)], nextTimerId := 4 }).2.2.2 3 9 rfl⟩

/-- C7: in every reachable state at most one dismiss timer is
outstanding; displaying an error leaves exactly one pending timer, a
fresh one due exactly `ERROR_DISPLAY_DURATION` after the moment of
display; any previously stored timer is cancelled by that display (its
id is no longer pending); and when the stored timer fires at its due
time the error is hidden, the slot cleared, and no timer remains. -/
theorem error_dismiss_timer_discipline :
    (∀ s : UIState, Reachable s → s.pendingTimers.length ≤ 1) ∧
    (∀ (s : UIState) (m : String), Reachable s →
       (displayError m s).pendingTimers
         = [(s.nextTimerId, s.now + ERROR_DISPLAY_DURATION)]) ∧
    (∀ (s : UIState) (m : String) (i t : Nat), Reachable s → s.errorTimeout = some i →
       (i, t) ∉ (displayError m s).pendingTimers) ∧
    (∀ (s : UIState) (i t : Nat), Reachable s → s.errorTimeout = some i →
       (i, t) ∈ s.pendingTimers → t ≤ s.now →
       (fireTimer i s).errorVisible = false ∧ (fireTimer i s).errorTimeout = none ∧
       (fireTimer i s).pendingTimers = []) := by
  refine ⟨?_, ?_, ?_, ?_⟩
  · intro s hs
    rcases (reachable_timerInv hs).2 with ⟨i, t, hi, hp⟩ | ⟨hi, hp⟩ <;> simp [hp]
  · intro s m hs
    exact displayError_pendingTimers_of_inv m s (reachable_timerInv hs)
  · intro s m i t hs hi hmem
    have hinv := reachable_timerInv hs
    rw [displayError_pendingTimers_of_inv m s hinv] at hmem
    simp only [List.mem_singleton, Prod.mk.injEq] at hmem
    rcases hinv.2 with ⟨j, u, hj, hp⟩ | ⟨hj, hp⟩
    · rw [hi] at hj
      injection hj with hij
      have hb : j < s.nextTimerId := hinv.1 (j, u) (by rw [hp]; exact List.mem_singleton_self _)
      omega
    · rw [hi] at hj
      cases hj
  · intro s i t hs hi hmem hdue
    have hinv := reachable_timerInv hs
    rcases hinv.2 with ⟨j, u, hj, hp⟩ | ⟨hj, hp⟩
    · rw [hi] at hj
      injection hj with hij
      subst hij
      refine ⟨by simp [fireTimer, hideError], by simp [fireTimer, hideError], ?_⟩
      simp only [fireTimer, hideError, clearErrorTimer]
      simp only [hi]
      simp [hp]
    · rw [hi] at hj
      cases hj

/-- C7 witness: from the freshly loaded page (where the state is
reachable by construction), displaying an error schedules exactly one
timer, with id 0, due at the configured 5000 milliseconds. -/
theorem error_dismiss_timer_discipline_witness :
    Reachable initState ∧
    (displayError "Conversion failed. Please try again." initState).pendingTimers
      = [(0, 5000)] :=
  ⟨Reachable.init, error_dismiss_timer_discipline.2.1 initState
    "Conversion failed. Please try again." Reachable.init⟩
